import Mathlib

/-!
Verification of the firefly personalization core against its specification.

The Python services under `backend/app/services/` are embedded shallowly:
pure fragments become Lean functions over `ℚ`, `ℤ`, `ℕ`, `String`, lists and
association lists; the SQLAlchemy/DB layer is replaced by explicit arguments
(the rows a query would return), and the random source of Thompson sampling
is replaced by an explicitly passed draw function.
-/

namespace Firefly

/-! ## Belief store (`app/services/ml_training.py`) -/

/-- One context-bucket sub-belief: the `{"alpha": 1.0, "beta": 1.0, "count": 0}`
dict created inside `update_intervention_belief` (ml_training.py line 91). -/
structure SubBelief where
  alpha : ℚ
  beta : ℚ
  count : ℕ
deriving Repr, DecidableEq

/-- Global belief record for one intervention: the dict created at
ml_training.py lines 67–72, with the per-context sub-beliefs as an
association list (a Python dict keyed by context key). -/
structure Belief where
  alpha : ℚ
  beta : ℚ
  count : ℕ
  contexts : List (String × SubBelief)
deriving Repr, DecidableEq

/-- Fresh sub-belief, `{"alpha": 1.0, "beta": 1.0, "count": 0}` (line 91). -/
def initSubBelief : SubBelief := ⟨1, 1, 0⟩

/-- Fresh belief, `{"alpha": 1.0, "beta": 1.0, "count": 0, "contexts": {}}`
(lines 67–72): the Laplace prior Beta(1,1). -/
def initBelief : Belief := ⟨1, 1, 0, []⟩

/-- Rating→success mapping of `update_intervention_belief` (lines 76–81):
rating ≥ 4 ↦ 1.0, rating ≤ 2 ↦ 0.0, rating == 3 ↦ 0.5. -/
def successValue (rating : ℤ) : ℚ :=
  if 4 ≤ rating then 1 else if rating ≤ 2 then 0 else 1/2

/-- Energy bucketing of `_get_context_key` (lines 110–116):
low ≤ 3 < medium ≤ 7 < high. -/
def energyBucket (energy : ℤ) : String :=
  if energy ≤ 3 then "low" else if energy ≤ 7 then "medium" else "high"

/-- Context as passed by the API layer (`api/ml.py` lines 83–87). -/
structure Context where
  emotion : String
  energy_level : ℤ
  time_of_day : String
deriving Repr, DecidableEq

/-- Embeds `_get_context_key` (ml_training.py lines 103–118): the deterministic
`f"{emotion}_{energy_bucket}_{time_of_day}"` string. -/
def get_context_key (c : Context) : String :=
  c.emotion ++ "_" ++ energyBucket c.energy_level ++ "_" ++ c.time_of_day

/-- Embeds `dict[k] = f(dict.get(k, default))` on an association list: Python dict
update with lazy initialisation of a missing key, preserving insertion order. -/
def updateAssoc {β : Type} (dflt : β) (f : β → β) (k : String) :
    List (String × β) → List (String × β)
  | [] => [(k, f dflt)]
  | (k', v) :: rest =>
      if k' = k then (k', f v) :: rest else (k', v) :: updateAssoc dflt f k rest

/-- The update applied by `update_intervention_belief` to a sub-belief
(lines 93–95): `alpha += success; beta += (1 - success); count += 1`. -/
def updateSub (s : ℚ) (sb : SubBelief) : SubBelief :=
  ⟨sb.alpha + s, sb.beta + (1 - s), sb.count + 1⟩

/-- The update applied by `update_intervention_belief` to one intervention's
belief record (lines 84–95): global alpha/beta/count update plus the identical
update of the matching context sub-belief. -/
def updateBeliefRecord (rating : ℤ) (ckey : String) (b : Belief) : Belief :=
  let s := successValue rating
  { alpha := b.alpha + s
    beta := b.beta + (1 - s)
    count := b.count + 1
    contexts := updateAssoc initSubBelief (updateSub s) ckey b.contexts }

/-- Per-user model state: the `UserMLModel` fields touched by
`update_intervention_belief` (`intervention_prior_beliefs`,
`total_interactions`). -/
structure ModelState where
  beliefs : List (String × Belief)
  total_interactions : ℕ
deriving Repr, DecidableEq

/-- The state `get_or_create_user_model` creates lazily
(ml_training.py lines 26–43): empty beliefs, zero interactions. -/
def initModelState : ModelState := ⟨[], 0⟩

/-- Embeds `update_intervention_belief` (ml_training.py lines 45–101) as a state
transformer: initialises the intervention's belief if absent, applies the
Beta update globally and to the context sub-belief, bumps
`total_interactions`. -/
def update_intervention_belief (ikey : String) (rating : ℤ) (c : Context)
    (m : ModelState) : ModelState :=
  { beliefs := updateAssoc initBelief (updateBeliefRecord rating (get_context_key c)) ikey m.beliefs
    total_interactions := m.total_interactions + 1 }

/-- Embeds `UpdateBeliefRequest.effectiveness_rating` validation
(`schemas/ml.py` line 159): `Field(..., ge=1, le=5)`. -/
def validRating (r : ℤ) : Bool := decide (1 ≤ r) && decide (r ≤ 5)

/-- The exposed `recordFeedback` operation: pydantic validation at the API
boundary (`schemas/ml.py` lines 157–162) followed by
`update_intervention_belief`, which creates missing per-user model state
lazily via `get_or_create_user_model`. `none` models a user with no stored
`UserMLModel` row. -/
def recordFeedback (state : Option ModelState) (ikey : String) (rating : ℤ)
    (c : Context) : Except String ModelState :=
  if validRating rating then
    .ok (update_intervention_belief ikey rating c (state.getD initModelState))
  else
    .error "ValidationError"

/-- One feedback event as recorded through the API. -/
structure FeedbackEvent where
  ikey : String
  rating : ℤ
  ctx : Context
deriving Repr, DecidableEq

/-- Record a sequence of feedback events, oldest first, starting from the
lazily created fresh state. -/
def recordAll (events : List FeedbackEvent) : ModelState :=
  events.foldl (fun m e => update_intervention_belief e.ikey e.rating e.ctx m) initModelState

/-- Python `dict.get(k)` on an association list. -/
def lookupA {α β : Type} [DecidableEq α] (l : List (α × β)) (k : α) : Option β :=
  (l.find? (fun p => p.1 = k)).map Prod.snd

/-- The belief the store holds for an intervention: the stored record, or the
fresh Laplace prior if the intervention was never seen. -/
def beliefOf (m : ModelState) (ikey : String) : Belief :=
  (lookupA m.beliefs ikey).getD initBelief

/-- Posterior mean of a Beta(alpha, beta) belief. -/
def posteriorMean (b : Belief) : ℚ := b.alpha / (b.alpha + b.beta)

/-- Embeds `_sample_beta` (ml_training.py lines 151–158): given the two Gamma draws
`x ~ Gamma(alpha, 1)` and `y ~ Gamma(beta, 1)` produced by the random source
(passed explicitly, since the embedding is deterministic), returns
`x / (x + y)`. -/
def sample_beta (x y : ℚ) : ℚ := x / (x + y)

/-- The Beta parameters `sample_intervention_effectiveness`
(ml_training.py lines 120–149) samples from: the context sub-belief if it
exists with `count >= 3`, else the intervention's global belief, else the
uniform prior Beta(1, 1) for an entirely unseen intervention. -/
def selectBeliefParams (beliefs : List (String × Belief)) (ikey : String)
    (c : Context) : ℚ × ℚ :=
  match lookupA beliefs ikey with
  | none => (1, 1)
  | some b =>
      match lookupA b.contexts (get_context_key c) with
      | some cb => if 3 ≤ cb.count then (cb.alpha, cb.beta) else (b.alpha, b.beta)
      | none => (b.alpha, b.beta)

/-- Embeds `sample_intervention_effectiveness` with the random source passed
explicitly: `draws p` is the pair of Gamma draws the source produces for the
Beta parameters `p`. -/
def sample_intervention_effectiveness (beliefs : List (String × Belief))
    (ikey : String) (c : Context) (draws : ℚ × ℚ → ℚ × ℚ) : ℚ :=
  let p := selectBeliefParams beliefs ikey c
  sample_beta (draws p).1 (draws p).2

/-! ### Lemmas about the association-list dict embedding -/

theorem lookupA_updateAssoc_self {β : Type} (dflt : β) (f : β → β) (k : String)
    (l : List (String × β)) :
    lookupA (updateAssoc dflt f k l) k = some (f ((lookupA l k).getD dflt)) := by
  induction l with
  | nil => simp [lookupA, updateAssoc, List.find?]
  | cons hd tl ih =>
      obtain ⟨k', v⟩ := hd
      by_cases h : k' = k
      · subst h
        simp [lookupA, updateAssoc, List.find?]
      · simp only [updateAssoc, if_neg h]
        simpa [lookupA, List.find?, h] using ih

theorem lookupA_updateAssoc_ne {β : Type} (dflt : β) (f : β → β) (k k' : String)
    (l : List (String × β)) (hne : k ≠ k') :
    lookupA (updateAssoc dflt f k l) k' = lookupA l k' := by
  induction l with
  | nil => simp [lookupA, updateAssoc, List.find?, hne]
  | cons hd tl ih =>
      obtain ⟨k₀, v⟩ := hd
      by_cases h : k₀ = k
      · subst h
        simp [lookupA, updateAssoc, List.find?, hne]
      · simp only [updateAssoc, if_neg h]
        by_cases h' : k₀ = k'
        · simp [lookupA, List.find?, h']
        · simpa [lookupA, List.find?, h'] using ih

/-- Every rating adds exactly one pseudo-count: `success + (1 - success) = 1`. -/
theorem successValue_total (r : ℤ) : successValue r + (1 - successValue r) = 1 := by
  ring

/-- One `update_intervention_belief` call adds 1 to `alpha + beta` of the
touched intervention's belief and leaves every other belief unchanged. -/
theorem alphaBetaSum_update (m : ModelState) (e : FeedbackEvent) (ikey : String) :
    (beliefOf (update_intervention_belief e.ikey e.rating e.ctx m) ikey).alpha
      + (beliefOf (update_intervention_belief e.ikey e.rating e.ctx m) ikey).beta
    = (beliefOf m ikey).alpha + (beliefOf m ikey).beta
      + (if e.ikey = ikey then 1 else 0) := by
  by_cases h : e.ikey = ikey
  · subst h
    simp only [beliefOf, update_intervention_belief, if_pos rfl,
      lookupA_updateAssoc_self]
    cases hl : lookupA m.beliefs e.ikey with
    | none => simp [hl, updateBeliefRecord, initBelief, beliefOf]; ring
    | some b => simp [hl, updateBeliefRecord, beliefOf]; ring
  · simp [beliefOf, update_intervention_belief,
      lookupA_updateAssoc_ne _ _ _ _ _ h, h]

theorem alphaBetaSum_foldl (events : List FeedbackEvent) (m : ModelState)
    (ikey : String) :
    (beliefOf (events.foldl
        (fun s e => update_intervention_belief e.ikey e.rating e.ctx s) m) ikey).alpha
      + (beliefOf (events.foldl
        (fun s e => update_intervention_belief e.ikey e.rating e.ctx s) m) ikey).beta
    = (beliefOf m ikey).alpha + (beliefOf m ikey).beta
      + ((events.filter (fun e => e.ikey = ikey)).length : ℚ) := by
  induction events generalizing m with
  | nil => simp
  | cons e rest ih =>
      simp only [List.foldl_cons, List.filter_cons]
      rw [ih]
      rw [alphaBetaSum_update m e ikey]
      by_cases h : e.ikey = ikey
      · simp [h]
        ring
      · simp [h]

/-- C2: pseudo-count invariant.  For every sequence of valid feedback events
(ratings in [1,5]) recorded via `update_intervention_belief` starting from the
lazily created fresh state, an intervention's global belief satisfies
`alpha + beta - 2 = number of feedback events recorded for it`, across all
three rating classes (success 1.0, failure 0.0, fractional 0.5). -/
theorem pseudocount_invariant (events : List FeedbackEvent) (ikey : String)
    (hvalid : ∀ e ∈ events, 1 ≤ e.rating ∧ e.rating ≤ 5) :
    (beliefOf (recordAll events) ikey).alpha
      + (beliefOf (recordAll events) ikey).beta - 2
    = ((events.filter (fun e => e.ikey = ikey)).length : ℚ) := by
  have h := alphaBetaSum_foldl events initModelState ikey
  simp only [recordAll]
  rw [h]
  simp [beliefOf, initModelState, initBelief, lookupA, List.find?]
  ring

/-- Witness for `pseudocount_invariant` at a concrete event sequence covering
all three rating classes. -/
theorem pseudocount_invariant_witness :
    (∀ e ∈ ([⟨"med", 5, ⟨"calm", 2, "am"⟩⟩, ⟨"med", 1, ⟨"calm", 2, "am"⟩⟩,
              ⟨"med", 3, ⟨"stress", 8, "pm"⟩⟩, ⟨"walk", 4, ⟨"calm", 2, "am"⟩⟩] :
              List FeedbackEvent), 1 ≤ e.rating ∧ e.rating ≤ 5) ∧
    (beliefOf (recordAll [⟨"med", 5, ⟨"calm", 2, "am"⟩⟩, ⟨"med", 1, ⟨"calm", 2, "am"⟩⟩,
              ⟨"med", 3, ⟨"stress", 8, "pm"⟩⟩, ⟨"walk", 4, ⟨"calm", 2, "am"⟩⟩]) "med").alpha
      + (beliefOf (recordAll [⟨"med", 5, ⟨"calm", 2, "am"⟩⟩, ⟨"med", 1, ⟨"calm", 2, "am"⟩⟩,
              ⟨"med", 3, ⟨"stress", 8, "pm"⟩⟩, ⟨"walk", 4, ⟨"calm", 2, "am"⟩⟩]) "med").beta - 2
    = (([⟨"med", 5, ⟨"calm", 2, "am"⟩⟩, ⟨"med", 1, ⟨"calm", 2, "am"⟩⟩,
              ⟨"med", 3, ⟨"stress", 8, "pm"⟩⟩, ⟨"walk", 4, ⟨"calm", 2, "am"⟩⟩].filter
          (fun e : FeedbackEvent => e.ikey = "med")).length : ℚ) :=
  ⟨by decide, pseudocount_invariant _ "med" (by decide)⟩

/-- C3: the posterior mean `alpha/(alpha+beta)` strictly increases under a
success update (rating ≥ 4) and strictly decreases under a failure update
(rating ≤ 2), for any belief with `alpha, beta ≥ 1`, all other state fixed. -/
theorem posterior_mean_monotone (b : Belief) (ck : String) (r : ℤ)
    (ha : 1 ≤ b.alpha) (hb : 1 ≤ b.beta) :
    (4 ≤ r → posteriorMean b < posteriorMean (updateBeliefRecord r ck b)) ∧
    (r ≤ 2 → posteriorMean (updateBeliefRecord r ck b) < posteriorMean b) := by
  have ha0 : (0 : ℚ) < b.alpha := lt_of_lt_of_le one_pos ha
  have hb0 : (0 : ℚ) < b.beta := lt_of_lt_of_le one_pos hb
  constructor
  · intro hr
    have hs : successValue r = 1 := by simp [successValue, hr]
    simp only [posteriorMean, updateBeliefRecord, hs]
    rw [div_lt_div_iff₀ (by linarith) (by linarith)]
    nlinarith
  · intro hr
    have hs : successValue r = 0 := by
      have : ¬ (4 : ℤ) ≤ r := by omega
      simp [successValue, this, hr]
    simp only [posteriorMean, updateBeliefRecord, hs]
    rw [div_lt_div_iff₀ (by linarith) (by linarith)]
    nlinarith

/-- Witness for `posterior_mean_monotone`: a rating-5 update moves the prior
mean 1/2 up to 2/3. -/
theorem posterior_mean_monotone_witness :
    posteriorMean initBelief < posteriorMean (updateBeliefRecord 5 "calm_low_am" initBelief) :=
  (posterior_mean_monotone initBelief "calm_low_am" 5 (by decide) (by decide)).1 (by decide)

/-- C4: `sample_intervention_effectiveness` samples the context sub-belief
exactly when it exists with count ≥ 3, else the intervention's global belief,
else Beta(1,1) for an entirely unseen intervention; and the returned value
lies in [0,1] whenever the injected Gamma draws are positive. -/
theorem sample_effectiveness_spec (beliefs : List (String × Belief))
    (ikey : String) (c : Context) (draws : ℚ × ℚ → ℚ × ℚ) :
    (∀ b cb, lookupA beliefs ikey = some b →
      lookupA b.contexts (get_context_key c) = some cb → 3 ≤ cb.count →
      sample_intervention_effectiveness beliefs ikey c draws
        = sample_beta (draws (cb.alpha, cb.beta)).1 (draws (cb.alpha, cb.beta)).2) ∧
    (∀ b, lookupA beliefs ikey = some b →
      (lookupA b.contexts (get_context_key c) = none ∨
        ∃ cb, lookupA b.contexts (get_context_key c) = some cb ∧ cb.count < 3) →
      sample_intervention_effectiveness beliefs ikey c draws
        = sample_beta (draws (b.alpha, b.beta)).1 (draws (b.alpha, b.beta)).2) ∧
    (lookupA beliefs ikey = none →
      sample_intervention_effectiveness beliefs ikey c draws
        = sample_beta (draws (1, 1)).1 (draws (1, 1)).2) ∧
    ((∀ p : ℚ × ℚ, 0 < (draws p).1 ∧ 0 < (draws p).2) →
      0 ≤ sample_intervention_effectiveness beliefs ikey c draws ∧
      sample_intervention_effectiveness beliefs ikey c draws ≤ 1) := by
  refine ⟨?_, ?_, ?_, ?_⟩
  · intro b cb hb hcb hcount
    simp [sample_intervention_effectiveness, selectBeliefParams, hb, hcb, hcount]
  · intro b hb hcb
    rcases hcb with hnone | ⟨cb, hsome, hlt⟩
    · simp [sample_intervention_effectiveness, selectBeliefParams, hb, hnone]
    · simp [sample_intervention_effectiveness, selectBeliefParams, hb, hsome,
        Nat.not_le_of_lt hlt]
  · intro hnone
    simp [sample_intervention_effectiveness, selectBeliefParams, hnone]
  · intro hpos
    set p := selectBeliefParams beliefs ikey c with hp
    have hx := (hpos p).1
    have hy := (hpos p).2
    have hsum : 0 < (draws p).1 + (draws p).2 := by linarith
    constructor
    · exact div_nonneg (le_of_lt hx) (le_of_lt hsum)
    · rw [sample_intervention_effectiveness, sample_beta, div_le_one hsum]
      linarith

/-- Witness for `sample_effectiveness_spec`: with positive draws the sampled
effectiveness is in [0,1] on a concrete belief store. -/
theorem sample_effectiveness_spec_witness :
    0 ≤ sample_intervention_effectiveness
        [("med", ⟨3, 2, 4, [("calm_low_am", ⟨5/2, 3/2, 3⟩)]⟩)]
        "med" ⟨"calm", 2, "am"⟩ (fun _ => (1, 2)) ∧
    sample_intervention_effectiveness
        [("med", ⟨3, 2, 4, [("calm_low_am", ⟨5/2, 3/2, 3⟩)]⟩)]
        "med" ⟨"calm", 2, "am"⟩ (fun _ => (1, 2)) ≤ 1 :=
  (sample_effectiveness_spec _ "med" ⟨"calm", 2, "am"⟩ _).2.2.2
    (fun _ => ⟨by norm_num, by norm_num⟩)

/-- C9: `recordFeedback` fails with a ValidationError for every rating outside
[1,5]; for every rating in [1,5] it never fails, and a missing per-user model
state (`none`) is created lazily instead of causing an error. -/
theorem recordFeedback_validation (state : Option ModelState) (ikey : String)
    (r : ℤ) (c : Context) :
    ((r < 1 ∨ 5 < r) → recordFeedback state ikey r c = .error "ValidationError") ∧
    (1 ≤ r → r ≤ 5 → ∃ m, recordFeedback state ikey r c = .ok m) ∧
    (1 ≤ r → r ≤ 5 →
      recordFeedback none ikey r c
        = .ok (update_intervention_belief ikey r c initModelState)) := by
  refine ⟨?_, ?_, ?_⟩
  · intro hbad
    have : validRating r = false := by
      rcases hbad with h | h <;> simp [validRating] <;> omega
    simp [recordFeedback, this]
  · intro h1 h5
    have : validRating r = true := by simp [validRating, h1, h5]
    exact ⟨update_intervention_belief ikey r c (state.getD initModelState),
      by simp [recordFeedback, this]⟩
  · intro h1 h5
    have : validRating r = true := by simp [validRating, h1, h5]
    simp [recordFeedback, this]

/-- Witness for `recordFeedback_validation`: rating 6 is rejected, rating 3 on
a missing state succeeds via lazy creation. -/
theorem recordFeedback_validation_witness :
    recordFeedback none "med" 6 ⟨"calm", 2, "am"⟩ = .error "ValidationError" ∧
    recordFeedback none "med" 3 ⟨"calm", 2, "am"⟩
      = .ok (update_intervention_belief "med" 3 ⟨"calm", 2, "am"⟩ initModelState) :=
  ⟨(recordFeedback_validation none "med" 6 ⟨"calm", 2, "am"⟩).1 (Or.inr (by norm_num)),
   (recordFeedback_validation none "med" 3 ⟨"calm", 2, "am"⟩).2.2 (by norm_num) (by norm_num)⟩

/-! ## Mood forecaster (`app/services/mood_prediction.py`) -/

/-- Python `round(x, 1)`: round to one decimal place.  On exact halves Python
rounds half to even on binary floats; the exact-tie behaviour is immaterial to
every property proved here, and round-half-up on rationals is used. -/
def round1 (x : ℚ) : ℚ := (⌊10 * x + 1/2⌋ : ℚ) / 10

/-- Python `round(x, 2)`: round to two decimal places (same tie caveat). -/
def round2 (x : ℚ) : ℚ := (⌊100 * x + 1/2⌋ : ℚ) / 100

/-- One hourly circadian bucket, as stored by `learn_circadian_patterns`
(ml_training.py lines 206–210). -/
structure HourBucket where
  avg_mood : ℚ
  avg_energy : ℚ
  sample_count : ℕ
deriving Repr, DecidableEq

/-- One weekday circadian bucket (ml_training.py lines 214–218). -/
structure DayBucket where
  avg_mood : ℚ
  avg_energy : ℚ
  sample_count : ℕ
deriving Repr, DecidableEq

/-- The circadian pattern set persisted on the user model
(ml_training.py lines 195–236): hourly/daily aggregates plus the derived
best/worst hours and best days. -/
structure Circadian where
  hourly : List (ℕ × HourBucket)
  daily : List (String × DayBucket)
  best_hours : List ℕ
  worst_hours : List ℕ
  best_days : List String
deriving Repr, DecidableEq

/-- Exponential smoothing of `predict_next_mood` (lines 50–56): the check-in
list is most-recent-first; the loop starts from `checkins[-1]` (oldest) and
folds `smoothed = 0.3 * value + (1 - 0.3) * smoothed` towards index 0, which
is this recursion on the most-recent-first list. -/
def smoothDesc : List ℚ → ℚ
  | [] => 0
  | [x] => x
  | x :: rest => 3/10 * x + 7/10 * smoothDesc rest

/-- Embeds `recent_avg` (line 59): mean mood of the 3 most recent check-ins. -/
def recent_avg (moods : List ℚ) : ℚ := (moods.take 3).sum / 3

/-- Embeds `older_avg` (line 60): `sum(checkins[3:min(7, len)]) / max(1, min(4, len - 3))`,
the mean of the up-to-4 check-ins preceding the 3 most recent. -/
def older_avg (moods : List ℚ) : ℚ :=
  ((moods.drop 3).take 4).sum / ((max 1 (min 4 (moods.length - 3)) : ℕ) : ℚ)

/-- Trend classification of `predict_next_mood` (lines 61–65). -/
def trend_direction (moods : List ℚ) : String :=
  if recent_avg moods - older_avg moods > 1/2 then "improving"
  else if recent_avg moods - older_avg moods < -(1/2) then "declining"
  else "stable"

/-- The forecast record returned by `predict_next_mood` (fields used by the
claims; insights omitted). -/
structure Forecast where
  prediction_available : Bool
  predicted_mood : ℚ
  predicted_energy : ℚ
  confidence : ℚ
  trend_direction : String
deriving Repr, DecidableEq

/-- Embeds `predict_next_mood` (mood_prediction.py lines 19–116), with the DB query
replaced by the (mood, energy) pairs of the trailing-14-day check-ins, most
recent first, and the target slot's hour and weekday passed explicitly. -/
def predict_next_mood (checkins : List (ℚ × ℚ)) (circadian : Circadian)
    (target_hour : ℕ) (target_day : String) : Forecast :=
  if checkins.length < 5 then
    { prediction_available := false, predicted_mood := 0, predicted_energy := 0,
      confidence := 0, trend_direction := "stable" }
  else
    let moods := checkins.map Prod.fst
    let smoothed_mood := smoothDesc moods
    let smoothed_energy := smoothDesc (checkins.map Prod.snd)
    let step1 : ℚ × ℚ × ℚ :=
      match lookupA circadian.hourly target_hour with
      | some hb =>
          let w := min ((hb.sample_count : ℚ) / 20) (7/10)
          ((1 - w) * smoothed_mood + w * hb.avg_mood,
           (1 - w) * smoothed_energy + w * hb.avg_energy, 1/2 + 1/5)
      | none => (smoothed_mood, smoothed_energy, 1/2)
    let step2 : ℚ × ℚ :=
      match lookupA circadian.daily target_day with
      | some db =>
          let w := min ((db.sample_count : ℚ) / 15) (3/10)
          (step1.1 * (1 - w) + db.avg_mood * w, step1.2.2 + 1/10)
      | none => (step1.1, step1.2.2)
    { prediction_available := true
      predicted_mood := max 1 (min 10 (round1 step2.1))
      predicted_energy := max 1 (min 10 (round1 step1.2.1))
      confidence := round2 (min step2.2 (19/20))
      trend_direction := trend_direction moods }

/-- Per-slot mood computation of `get_mood_forecast`
(mood_prediction.py lines 138–170): arithmetic-mean baseline over all
trailing-14-day check-ins, additive day adjustment `day_avg - baseline`,
50/50 average with the hourly bucket when present, clamp to [1,10], round to
one decimal (the clamp precedes the rounding here, line 169). -/
def forecast_slot (moods : List ℚ) (circ : Circadian) (day : String)
    (hour : ℕ) : ℚ :=
  let baseline := moods.sum / (moods.length : ℚ)
  let day_adjustment :=
    match lookupA circ.daily day with
    | some db => db.avg_mood - baseline
    | none => 0
  let base_mood := baseline + day_adjustment
  let hour_mood :=
    match lookupA circ.hourly hour with
    | some hb => (base_mood + hb.avg_mood) / 2
    | none => base_mood
  round1 (max 1 (min 10 hour_mood))

/-- One day of `get_mood_forecast` (lines 135–172): empty below 10 check-ins
in the window, otherwise one slot per fixed hour 08:00/14:00/20:00. -/
def get_mood_forecast_day (moods : List ℚ) (circ : Circadian) (day : String) :
    List (ℕ × ℚ) :=
  if moods.length < 10 then []
  else [8, 14, 20].map (fun h => (h, forecast_slot moods circ day h))

/-- The [1,10] clamp used on every forecast output. -/
theorem clamp_bounds (x : ℚ) : 1 ≤ max 1 (min 10 x) ∧ max 1 (min 10 x) ≤ 10 :=
  ⟨le_max_left _ _, max_le (by norm_num) (min_le_left _ _)⟩

/-- C5 (amended): with at least 5 recent check-ins, the trend is "improving"
exactly when the mean of the 3 most recent check-ins exceeds the mean of the
preceding up-to-4 by strictly more than 0.5, "declining" when it falls short
by strictly more than 0.5, and "stable" when the difference lies in
[-0.5, 0.5] — the boundary values ±0.5 classify as "stable". -/
theorem trend_thresholds (moods : List ℚ) (hlen : 5 ≤ moods.length) :
    (1/2 < recent_avg moods - older_avg moods →
      trend_direction moods = "improving") ∧
    (recent_avg moods - older_avg moods < -(1/2) →
      trend_direction moods = "declining") ∧
    (-(1/2) ≤ recent_avg moods - older_avg moods →
      recent_avg moods - older_avg moods ≤ 1/2 →
      trend_direction moods = "stable") := by
  unfold trend_direction
  refine ⟨fun h => ?_, fun h => ?_, fun h h' => ?_⟩
  · rw [if_pos h]
  · rw [if_neg (by linarith), if_pos h]
  · rw [if_neg (by linarith), if_neg (by linarith)]

/-- Witness for `trend_thresholds`: a clear rise of 3 points is "improving". -/
theorem trend_thresholds_witness :
    trend_direction [8, 8, 8, 5, 5, 5, 5] = "improving" :=
  (trend_thresholds [8, 8, 8, 5, 5, 5, 5] (by norm_num)).1
    (by norm_num [recent_avg, older_avg])

/-- Counterexample to C5 as stated: a history whose recent-vs-older mean
difference is exactly +0.5 is classified "stable" by the code, while the
claim's `≥ +0.5` threshold would classify it "improving". -/
theorem trend_boundary_counterexample :
    5 ≤ ([6, 6, 6, 6, 6, 5, 5] : List ℚ).length ∧
    recent_avg [6, 6, 6, 6, 6, 5, 5] - older_avg [6, 6, 6, 6, 6, 5, 5] = 1/2 ∧
    trend_direction [6, 6, 6, 6, 6, 5, 5] = "stable" := by
  refine ⟨by norm_num, by norm_num [recent_avg, older_avg], ?_⟩
  norm_num [trend_direction, recent_avg, older_avg]

/-- C8: whenever a forecast is produced, predicted mood and energy lie in
[1,10] for arbitrary (however extreme) check-in values and circadian
averages, and the confidence is 0.5, plus 0.2 if an hourly bucket was used,
plus 0.1 if a daily bucket was used, capped at 0.95. -/
theorem forecast_clamped_confidence (checkins : List (ℚ × ℚ)) (circ : Circadian)
    (h : ℕ) (d : String)
    (havail : (predict_next_mood checkins circ h d).prediction_available = true) :
    1 ≤ (predict_next_mood checkins circ h d).predicted_mood ∧
    (predict_next_mood checkins circ h d).predicted_mood ≤ 10 ∧
    1 ≤ (predict_next_mood checkins circ h d).predicted_energy ∧
    (predict_next_mood checkins circ h d).predicted_energy ≤ 10 ∧
    (predict_next_mood checkins circ h d).confidence
      = min (1/2 + (if (lookupA circ.hourly h).isSome then 1/5 else 0)
          + (if (lookupA circ.daily d).isSome then 1/10 else 0)) (19/20) := by
  by_cases hlen : checkins.length < 5
  · simp [predict_next_mood, hlen] at havail
  · cases hh : lookupA circ.hourly h <;> cases hd : lookupA circ.daily d <;>
      simp only [predict_next_mood, if_neg hlen, hh, hd, Option.isSome_none,
        Option.isSome_some, if_true, if_false, Bool.false_eq_true] <;>
      exact ⟨(clamp_bounds _).1, (clamp_bounds _).2,
        (clamp_bounds _).1, (clamp_bounds _).2, by norm_num [round2]⟩

/-- Concrete 5-check-in history for the forecast witness, with deliberately
extreme mood/energy values. -/
def extremeHistory : List (ℚ × ℚ) := [(1000, -50), (3, 4), (-7, 900), (2, 2), (9, 9)]

/-- Concrete circadian state with an hourly bucket at 20:00 and a daily bucket
for Monday. -/
def mondayCirc : Circadian :=
  ⟨[(20, ⟨6, 5, 10⟩)], [("Monday", ⟨7, 6, 4⟩)], [], [], []⟩

/-- Witness for `forecast_clamped_confidence` on an extreme concrete history:
both buckets used, confidence 0.8, outputs clamped. -/
theorem forecast_clamped_confidence_witness :
    1 ≤ (predict_next_mood extremeHistory mondayCirc 20 "Monday").predicted_mood ∧
    (predict_next_mood extremeHistory mondayCirc 20 "Monday").predicted_mood ≤ 10 ∧
    1 ≤ (predict_next_mood extremeHistory mondayCirc 20 "Monday").predicted_energy ∧
    (predict_next_mood extremeHistory mondayCirc 20 "Monday").predicted_energy ≤ 10 ∧
    (predict_next_mood extremeHistory mondayCirc 20 "Monday").confidence
      = min (1/2 + (if (lookupA mondayCirc.hourly 20).isSome then 1/5 else 0)
          + (if (lookupA mondayCirc.daily "Monday").isSome then 1/10 else 0)) (19/20) :=
  forecast_clamped_confidence extremeHistory mondayCirc 20 "Monday"
    (by norm_num [predict_next_mood, extremeHistory])

/-! ### The multi-day forecast versus the single-forecast procedure (C6) -/

/-- The amended claim's per-slot procedure, in its own words: when a daily
bucket exists for the slot's weekday the base is simply that weekday's average
mood (the additive day adjustment cancels the mean baseline), otherwise the
base is the arithmetic mean of the trailing-14-day moods; an hourly bucket for
the slot's hour contributes with fixed weight 1/2; the result is clamped to
[1,10] and rounded to one decimal.  Exponential smoothing, the evidence-scaled
blend weights, and the trend of the single-forecast procedure are not used. -/
def slot_spec_amended (moods : List ℚ) (circ : Circadian) (day : String)
    (hour : ℕ) : ℚ :=
  let base :=
    match lookupA circ.daily day with
    | some db => db.avg_mood
    | none => moods.sum / (moods.length : ℚ)
  let blended :=
    match lookupA circ.hourly hour with
    | some hb => (1 - 1/2) * base + 1/2 * hb.avg_mood
    | none => base
  round1 (max 1 (min 10 blended))

theorem forecast_slot_eq_spec_amended (moods : List ℚ) (circ : Circadian)
    (day : String) (hour : ℕ) :
    forecast_slot moods circ day hour = slot_spec_amended moods circ day hour := by
  unfold forecast_slot slot_spec_amended
  cases hd : lookupA circ.daily day <;> cases hh : lookupA circ.hourly hour <;>
    simp only [hd, hh] <;> congr 1 <;> congr 1 <;> congr 1 <;> ring

/-- C6 (amended): every per-slot prediction of the multi-day forecast is the
mean-baseline/day-average value 50/50-blended with the hourly average, not
the exponential-smoothing + evidence-weighted blend of the single-forecast
procedure. -/
theorem forecast_slot_matches_amended (moods : List ℚ) (circ : Circadian)
    (day : String) (h : ℕ) (v : ℚ)
    (hmem : (h, v) ∈ get_mood_forecast_day moods circ day) :
    v = slot_spec_amended moods circ day h := by
  unfold get_mood_forecast_day at hmem
  by_cases hlen : moods.length < 10
  · simp [hlen] at hmem
  · rw [if_neg hlen] at hmem
    simp only [List.map_cons, List.map_nil, List.mem_cons, List.mem_singleton,
      Prod.mk.injEq, List.not_mem_nil, or_false] at hmem
    rcases hmem with ⟨rfl, rfl⟩ | ⟨rfl, rfl⟩ | ⟨rfl, rfl⟩ <;>
      exact forecast_slot_eq_spec_amended ..

/-- A concrete 10-check-in history with one outlier: the arithmetic mean
(1.9) and the exponentially smoothed value (3.7) differ widely. -/
def outlierHistory : List (ℚ × ℚ) :=
  [(10, 5), (1, 5), (1, 5), (1, 5), (1, 5), (1, 5), (1, 5), (1, 5), (1, 5), (1, 5)]

/-- An empty circadian pattern set (user not yet trained). -/
def emptyCirc : Circadian := ⟨[], [], [], [], []⟩

/-- Counterexample to C6 as stated: on `outlierHistory` the 20:00 slot of the
multi-day forecast predicts 1.9 (mean baseline) while the single-forecast
procedure for the same hour, history and circadian state predicts 3.7
(exponentially smoothed baseline) — the slot values do not refine
`predict_next_mood`. -/
theorem forecast_slot_counterexample :
    (20, (19/10 : ℚ)) ∈
      get_mood_forecast_day (outlierHistory.map Prod.fst) emptyCirc "Monday" ∧
    (predict_next_mood outlierHistory emptyCirc 20 "Monday").prediction_available
      = true ∧
    (predict_next_mood outlierHistory emptyCirc 20 "Monday").predicted_mood
      = 37/10 ∧
    (37 : ℚ)/10 ≠ 19/10 := by
  refine ⟨?_, ?_, ?_, by norm_num⟩
  · norm_num [get_mood_forecast_day, forecast_slot, outlierHistory, emptyCirc,
      lookupA, List.find?, round1]
  · norm_num [predict_next_mood, outlierHistory]
  · norm_num [predict_next_mood, outlierHistory, emptyCirc, lookupA,
      List.find?, round1, smoothDesc, trend_direction, recent_avg, older_avg]

/-- Witness for `forecast_slot_matches_amended` at the 20:00 slot of the
concrete outlier history. -/
theorem forecast_slot_matches_amended_witness :
    (19/10 : ℚ) = slot_spec_amended (outlierHistory.map Prod.fst) emptyCirc
      "Monday" 20 :=
  forecast_slot_matches_amended (outlierHistory.map Prod.fst) emptyCirc
    "Monday" 20 (19/10)
    (by norm_num [get_mood_forecast_day, forecast_slot, outlierHistory,
      emptyCirc, lookupA, List.find?, round1])

/-! ## Pattern miner: trigger patterns (`learn_trigger_patterns`) -/

/-- A check-in as read by the trigger miner: mood score, optional anxiety
level, and the three optional context dimensions. -/
structure CheckinT where
  mood : ℤ
  anxiety : Option ℤ
  location : Option String
  activity : Option String
  social : Option String
deriving Repr, DecidableEq

/-- Embeds `is_negative` (ml_training.py line 269): mood ≤ 4 or a present anxiety
level ≥ 7.  (Python's `anxiety_level and anxiety_level >= 7` treats a missing
— or zero — anxiety level as false, which coincides with this predicate.) -/
def isNegative (c : CheckinT) : Bool :=
  decide (c.mood ≤ 4) ||
    (match c.anxiety with | some a => decide (7 ≤ a) | none => false)

/-- Embeds `is_positive` (line 270): mood ≥ 7. -/
def isPositive (c : CheckinT) : Bool := decide (7 ≤ c.mood)

/-- Sample count of one context value within one dimension (`data["count"]`). -/
def dimCount (proj : CheckinT → Option String) (v : String)
    (cs : List CheckinT) : ℕ :=
  (cs.filter (fun c => proj c = some v)).length

/-- Embeds `data["negative"]`: check-ins with this context value that are negative. -/
def dimNegative (proj : CheckinT → Option String) (v : String)
    (cs : List CheckinT) : ℕ :=
  (cs.filter (fun c => decide (proj c = some v) && isNegative c)).length

/-- Embeds `data["positive"]`: check-ins with this context value that are positive. -/
def dimPositive (proj : CheckinT → Option String) (v : String)
    (cs : List CheckinT) : ℕ :=
  (cs.filter (fun c => decide (proj c = some v) && isPositive c)).length

/-- Embeds `neg_rate = data["negative"] / data["count"]` (line 306). -/
def negRate (proj : CheckinT → Option String) (v : String)
    (cs : List CheckinT) : ℚ :=
  (dimNegative proj v cs : ℚ) / (dimCount proj v cs : ℚ)

/-- Embeds `data["positive"] / data["count"]` (line 309). -/
def posRate (proj : CheckinT → Option String) (v : String)
    (cs : List CheckinT) : ℚ :=
  (dimPositive proj v cs : ℚ) / (dimCount proj v cs : ℚ)

/-- Distinct values of one context dimension in first-occurrence order — the
iteration order of the Python `defaultdict` filled by the check-in scan. -/
def dimValues (proj : CheckinT → Option String) (cs : List CheckinT) :
    List String :=
  cs.foldl (fun acc c =>
    match proj c with
    | some v => if v ∈ acc then acc else acc ++ [v]
    | none => acc) []

/-- Risk classification for one dimension (lines 304–308): values with ≥ 3
samples and negative rate ≥ 0.6, with their rounded risk score. -/
def riskEntries (proj : CheckinT → Option String) (cs : List CheckinT) :
    List (String × ℚ) :=
  (dimValues proj cs).filterMap (fun v =>
    if 3 ≤ dimCount proj v cs ∧ 3/5 ≤ negRate proj v cs
    then some (v, round2 (negRate proj v cs)) else none)

/-- Protective classification for one dimension (the `elif` branch,
lines 309–310): ≥ 3 samples, negative rate below 0.6, positive rate ≥ 0.6. -/
def protectiveValues (proj : CheckinT → Option String) (cs : List CheckinT) :
    List String :=
  (dimValues proj cs).filter (fun v =>
    decide (3 ≤ dimCount proj v cs) && !decide (3/5 ≤ negRate proj v cs)
      && decide (3/5 ≤ posRate proj v cs))

/-- The trigger pattern set persisted on the user model (lines 302–331):
risk entries per dimension plus the tagged protective factors. -/
structure TriggerSet where
  locations : List (String × ℚ)
  activities : List (String × ℚ)
  social : List (String × ℚ)
  protective_factors : List (String × String)
deriving Repr, DecidableEq

/-- Embeds `learn_trigger_patterns` (ml_training.py lines 245–335) with the DB query
replaced by the trailing-90-day check-in list: no-op (`none`) below 15
check-ins, else risk/protective classification per dimension. -/
def learn_trigger_patterns (cs : List CheckinT) : Option TriggerSet :=
  if cs.length < 15 then none
  else some
    { locations := riskEntries (fun c => c.location) cs
      activities := riskEntries (fun c => c.activity) cs
      social := riskEntries (fun c => c.social) cs
      protective_factors :=
        (protectiveValues (fun c => c.location) cs).map (fun v => ("location", v))
        ++ (protectiveValues (fun c => c.activity) cs).map (fun v => ("activity", v))
        ++ (protectiveValues (fun c => c.social) cs).map (fun v => ("social", v)) }

/-- A value classified risk in a dimension has negative rate ≥ 0.6 there. -/
theorem negRate_of_mem_riskEntries (proj : CheckinT → Option String)
    (cs : List CheckinT) (v : String)
    (h : v ∈ (riskEntries proj cs).map Prod.fst) :
    3/5 ≤ negRate proj v cs := by
  rw [List.mem_map] at h
  obtain ⟨⟨v', q⟩, hmem, hfst⟩ := h
  rw [riskEntries, List.mem_filterMap] at hmem
  obtain ⟨a, _, hfa⟩ := hmem
  by_cases hc : 3 ≤ dimCount proj a cs ∧ 3/5 ≤ negRate proj a cs
  · rw [if_pos hc] at hfa
    obtain ⟨rfl, -⟩ := Prod.mk.injEq .. ▸ Option.some.injEq .. ▸ hfa
    simp only at hfst
    subst hfst
    exact hc.2
  · rw [if_neg hc] at hfa
    exact absurd hfa (by simp)

/-- A value classified protective in a dimension has negative rate < 0.6. -/
theorem negRate_of_mem_protectiveValues (proj : CheckinT → Option String)
    (cs : List CheckinT) (v : String) (h : v ∈ protectiveValues proj cs) :
    ¬ 3/5 ≤ negRate proj v cs := by
  rw [protectiveValues, List.mem_filter] at h
  have := h.2
  simp only [Bool.and_eq_true, Bool.not_eq_true', decide_eq_false_iff_not] at this
  exact this.1.2

/-- Decomposition of membership in the tagged protective-factor list. -/
theorem protective_mem_cases (cs : List CheckinT) (tag v : String)
    (hp : (tag, v) ∈
      (protectiveValues (fun c => c.location) cs).map (fun v => ("location", v))
      ++ (protectiveValues (fun c => c.activity) cs).map (fun v => ("activity", v))
      ++ (protectiveValues (fun c => c.social) cs).map (fun v => ("social", v))) :
    (tag = "location" ∧ v ∈ protectiveValues (fun c => c.location) cs) ∨
    (tag = "activity" ∧ v ∈ protectiveValues (fun c => c.activity) cs) ∨
    (tag = "social" ∧ v ∈ protectiveValues (fun c => c.social) cs) := by
  simp only [List.mem_append, or_assoc] at hp
  rcases hp with hp | hp | hp
  · obtain ⟨a, ha, heq⟩ := List.mem_map.1 hp
    injection heq with htag hav
    exact Or.inl ⟨htag.symm, hav ▸ ha⟩
  · obtain ⟨a, ha, heq⟩ := List.mem_map.1 hp
    injection heq with htag hav
    exact Or.inr (Or.inl ⟨htag.symm, hav ▸ ha⟩)
  · obtain ⟨a, ha, heq⟩ := List.mem_map.1 hp
    injection heq with htag hav
    exact Or.inr (Or.inr ⟨htag.symm, hav ▸ ha⟩)

/-- C7: no context value is classified both as a risk trigger and as a
protective factor of the same dimension in one mined trigger pattern set. -/
theorem risk_protective_exclusive (cs : List CheckinT) (ts : TriggerSet)
    (hts : learn_trigger_patterns cs = some ts) (v : String) :
    ¬(v ∈ ts.locations.map Prod.fst ∧ ("location", v) ∈ ts.protective_factors) ∧
    ¬(v ∈ ts.activities.map Prod.fst ∧ ("activity", v) ∈ ts.protective_factors) ∧
    ¬(v ∈ ts.social.map Prod.fst ∧ ("social", v) ∈ ts.protective_factors) := by
  rw [learn_trigger_patterns] at hts
  by_cases hlen : cs.length < 15
  · rw [if_pos hlen] at hts; exact absurd hts (by simp)
  · rw [if_neg hlen, Option.some.injEq] at hts
    subst hts
    refine ⟨fun hcon => ?_, fun hcon => ?_, fun hcon => ?_⟩
    · obtain ⟨hr, hp⟩ := hcon
      rcases protective_mem_cases cs _ v hp with ⟨-, hm⟩ | ⟨ht, -⟩ | ⟨ht, -⟩
      · exact negRate_of_mem_protectiveValues _ cs _ hm
          (negRate_of_mem_riskEntries _ cs _ hr)
      · exact absurd ht (by decide)
      · exact absurd ht (by decide)
    · obtain ⟨hr, hp⟩ := hcon
      rcases protective_mem_cases cs _ v hp with ⟨ht, -⟩ | ⟨-, hm⟩ | ⟨ht, -⟩
      · exact absurd ht (by decide)
      · exact negRate_of_mem_protectiveValues _ cs _ hm
          (negRate_of_mem_riskEntries _ cs _ hr)
      · exact absurd ht (by decide)
    · obtain ⟨hr, hp⟩ := hcon
      rcases protective_mem_cases cs _ v hp with ⟨ht, -⟩ | ⟨ht, -⟩ | ⟨-, hm⟩
      · exact absurd ht (by decide)
      · exact absurd ht (by decide)
      · exact negRate_of_mem_protectiveValues _ cs _ hm
          (negRate_of_mem_riskEntries _ cs _ hr)

/-- Concrete 15-check-in history: "office" is always negative, "home" always
positive, the rest carry no location. -/
def trigCheckins : List CheckinT :=
  [⟨2, none, some "office", none, none⟩, ⟨2, none, some "office", none, none⟩,
   ⟨2, none, some "office", none, none⟩, ⟨8, none, some "home", none, none⟩,
   ⟨8, none, some "home", none, none⟩, ⟨8, none, some "home", none, none⟩,
   ⟨5, none, none, none, none⟩, ⟨5, none, none, none, none⟩,
   ⟨5, none, none, none, none⟩, ⟨5, none, none, none, none⟩,
   ⟨5, none, none, none, none⟩, ⟨5, none, none, none, none⟩,
   ⟨5, none, none, none, none⟩, ⟨5, none, none, none, none⟩,
   ⟨5, none, none, none, none⟩]

/-- The trigger set mined from `trigCheckins` (the record
`learn_trigger_patterns` returns once its ≥ 15-check-in gate passes). -/
def trigTS : TriggerSet :=
  { locations := riskEntries (fun c => c.location) trigCheckins
    activities := riskEntries (fun c => c.activity) trigCheckins
    social := riskEntries (fun c => c.social) trigCheckins
    protective_factors :=
      (protectiveValues (fun c => c.location) trigCheckins).map (fun v => ("location", v))
      ++ (protectiveValues (fun c => c.activity) trigCheckins).map (fun v => ("activity", v))
      ++ (protectiveValues (fun c => c.social) trigCheckins).map (fun v => ("social", v)) }

/-- Witness for `risk_protective_exclusive` on the concrete history: the risk
trigger "office" is not simultaneously a protective factor. -/
theorem risk_protective_exclusive_witness :
    ¬("office" ∈ trigTS.locations.map Prod.fst ∧
      ("location", "office") ∈ trigTS.protective_factors) ∧
    ¬("office" ∈ trigTS.activities.map Prod.fst ∧
      ("activity", "office") ∈ trigTS.protective_factors) ∧
    ¬("office" ∈ trigTS.social.map Prod.fst ∧
      ("social", "office") ∈ trigTS.protective_factors) :=
  risk_protective_exclusive trigCheckins trigTS
    (by rw [learn_trigger_patterns, if_neg (by decide)]; rfl) "office"

/-! ## Pattern miner: circadian patterns (`learn_circadian_patterns`) -/

/-- A check-in as read by the circadian miner: hour of day, weekday name,
mood score and energy level. -/
structure CheckinC where
  hour : ℕ
  day : String
  mood : ℤ
  energy : ℤ
deriving Repr, DecidableEq

/-- Distinct hours in first-occurrence order — the iteration order of the
Python `defaultdict` filled by the check-in scan (lines 179–188). -/
def hoursOf (cs : List CheckinC) : List ℕ :=
  cs.foldl (fun acc c => if c.hour ∈ acc then acc else acc ++ [c.hour]) []

/-- Distinct weekday names in first-occurrence order. -/
def daysOf (cs : List CheckinC) : List String :=
  cs.foldl (fun acc c => if c.day ∈ acc then acc else acc ++ [c.day]) []

def hourCount (cs : List CheckinC) (h : ℕ) : ℕ :=
  (cs.filter (fun c => c.hour = h)).length

def hourMoodSum (cs : List CheckinC) (h : ℕ) : ℤ :=
  ((cs.filter (fun c => c.hour = h)).map (fun c => c.mood)).sum

def hourEnergySum (cs : List CheckinC) (h : ℕ) : ℤ :=
  ((cs.filter (fun c => c.hour = h)).map (fun c => c.energy)).sum

def dayCount (cs : List CheckinC) (d : String) : ℕ :=
  (cs.filter (fun c => c.day = d)).length

def dayMoodSum (cs : List CheckinC) (d : String) : ℤ :=
  ((cs.filter (fun c => c.day = d)).map (fun c => c.mood)).sum

def dayEnergySum (cs : List CheckinC) (d : String) : ℤ :=
  ((cs.filter (fun c => c.day = d)).map (fun c => c.energy)).sum

/-- One qualified hourly bucket (lines 206–210): rounded mean mood/energy and
the sample count. -/
def mkHourBucket (cs : List CheckinC) (h : ℕ) : HourBucket :=
  ⟨round2 ((hourMoodSum cs h : ℚ) / (hourCount cs h : ℚ)),
   round2 ((hourEnergySum cs h : ℚ) / (hourCount cs h : ℚ)),
   hourCount cs h⟩

/-- One qualified daily bucket (lines 214–218). -/
def mkDayBucket (cs : List CheckinC) (d : String) : DayBucket :=
  ⟨round2 ((dayMoodSum cs d : ℚ) / (dayCount cs d : ℚ)),
   round2 ((dayEnergySum cs d : ℚ) / (dayCount cs d : ℚ)),
   dayCount cs d⟩

/-- Hours whose bucket has at least 3 samples (line 205). -/
def qualifiedHours (cs : List CheckinC) : List ℕ :=
  (hoursOf cs).filter (fun h => 3 ≤ hourCount cs h)

/-- Weekdays whose bucket has at least 3 samples (line 213). -/
def qualifiedDays (cs : List CheckinC) : List String :=
  (daysOf cs).filter (fun d => 3 ≤ dayCount cs d)

/-- Stable insertion into a list sorted descending by `key`: the inserted
element goes before the first strictly smaller key. -/
def insertDescBy {α : Type} (key : α → ℚ) (x : α) : List α → List α
  | [] => [x]
  | y :: ys => if key x < key y then y :: insertDescBy key x ys else x :: y :: ys

/-- Stable descending sort by `key` — Python's stable
`sorted(..., key=..., reverse=True)` (lines 222–226). -/
def sortDescBy {α : Type} (key : α → ℚ) : List α → List α
  | [] => []
  | x :: xs => insertDescBy key x (sortDescBy key xs)

theorem length_insertDescBy {α : Type} (key : α → ℚ) (x : α) (l : List α) :
    (insertDescBy key x l).length = l.length + 1 := by
  induction l with
  | nil => rfl
  | cons y ys ih =>
      rw [insertDescBy]
      split
      · simp [ih]
      · simp

theorem length_sortDescBy {α : Type} (key : α → ℚ) (l : List α) :
    (sortDescBy key l).length = l.length := by
  induction l with
  | nil => rfl
  | cons x xs ih => rw [sortDescBy, length_insertDescBy, ih, List.length_cons]

/-- Embeds `learn_circadian_patterns` (ml_training.py lines 160–243) with the DB
query replaced by the trailing-60-day check-in list: no-op (`none`) below 10
check-ins, else hourly/daily buckets with ≥ 3 samples, best/worst hours from
the ends of the list sorted descending by average mood (`[:3]` and `[-3:]`),
best days from the top 2. -/
def learn_circadian_patterns (cs : List CheckinC) : Option Circadian :=
  if cs.length < 10 then none
  else
    let hourly := (qualifiedHours cs).map (fun h => (h, mkHourBucket cs h))
    let daily := (qualifiedDays cs).map (fun d => (d, mkDayBucket cs d))
    let sorted_hours := sortDescBy (fun p => p.2.avg_mood) hourly
    let sorted_days := sortDescBy (fun p => p.2.avg_mood) daily
    some
      { hourly := hourly
        daily := daily
        best_hours := (sorted_hours.take 3).map Prod.fst
        worst_hours := (sorted_hours.drop (sorted_hours.length - 3)).map Prod.fst
        best_days := (sorted_days.take 2).map Prod.fst }

/-- C10: when circadian mining runs (≥ 10 check-ins) and the number k of
hourly buckets with ≥ 3 samples satisfies 1 ≤ k ≤ 3, `best_hours` and
`worst_hours` are the same k hours: both ends of one sorted list overlap
entirely when fewer than 6 buckets qualify. -/
theorem best_worst_coincide (cs : List CheckinC) (circ : Circadian)
    (hc : learn_circadian_patterns cs = some circ)
    (hk1 : 1 ≤ (qualifiedHours cs).length)
    (hk3 : (qualifiedHours cs).length ≤ 3) :
    circ.best_hours = circ.worst_hours ∧
    circ.best_hours.length = (qualifiedHours cs).length := by
  rw [learn_circadian_patterns] at hc
  by_cases hlen : cs.length < 10
  · rw [if_pos hlen] at hc; exact absurd hc (by simp)
  · rw [if_neg hlen, Option.some.injEq] at hc
    subst hc
    have hlensort : (sortDescBy (fun p : ℕ × HourBucket => p.2.avg_mood)
        ((qualifiedHours cs).map (fun h => (h, mkHourBucket cs h)))).length
        = (qualifiedHours cs).length := by
      rw [length_sortDescBy, List.length_map]
    constructor
    · simp only
      rw [List.take_of_length_le (by omega), Nat.sub_eq_zero_of_le (by omega),
        List.drop_zero]
    · simp only
      rw [List.take_of_length_le (by omega), List.length_map, hlensort]

/-- Concrete 10-check-in history: six check-ins at 09:00 (mood 8) and four at
15:00 (mood 4), all on Mondays. -/
def circCheckins : List CheckinC :=
  [⟨9, "Monday", 8, 5⟩, ⟨9, "Monday", 8, 5⟩, ⟨9, "Monday", 8, 5⟩,
   ⟨9, "Monday", 8, 5⟩, ⟨9, "Monday", 8, 5⟩, ⟨9, "Monday", 8, 5⟩,
   ⟨15, "Monday", 4, 5⟩, ⟨15, "Monday", 4, 5⟩, ⟨15, "Monday", 4, 5⟩,
   ⟨15, "Monday", 4, 5⟩]

/-- The circadian set mined from `circCheckins` (the record
`learn_circadian_patterns` returns once its ≥ 10-check-in gate passes):
two qualified hours, so best and worst hours coincide. -/
def circTS : Circadian :=
  { hourly := (qualifiedHours circCheckins).map (fun h => (h, mkHourBucket circCheckins h))
    daily := (qualifiedDays circCheckins).map (fun d => (d, mkDayBucket circCheckins d))
    best_hours := ((sortDescBy (fun p : ℕ × HourBucket => p.2.avg_mood)
      ((qualifiedHours circCheckins).map (fun h => (h, mkHourBucket circCheckins h)))).take 3).map Prod.fst
    worst_hours := ((sortDescBy (fun p : ℕ × HourBucket => p.2.avg_mood)
      ((qualifiedHours circCheckins).map (fun h => (h, mkHourBucket circCheckins h)))).drop
        ((sortDescBy (fun p : ℕ × HourBucket => p.2.avg_mood)
          ((qualifiedHours circCheckins).map (fun h => (h, mkHourBucket circCheckins h)))).length - 3)).map Prod.fst
    best_days := ((sortDescBy (fun p : String × DayBucket => p.2.avg_mood)
      ((qualifiedDays circCheckins).map (fun d => (d, mkDayBucket circCheckins d)))).take 2).map Prod.fst }

/-- Witness for `best_worst_coincide` on the concrete two-bucket history. -/
theorem best_worst_coincide_witness :
    circTS.best_hours = circTS.worst_hours ∧
    circTS.best_hours.length = (qualifiedHours circCheckins).length :=
  best_worst_coincide circCheckins circTS
    (by rw [learn_circadian_patterns, if_neg (by decide)]; rfl)
    (by decide)
    (by decide)

/-! ## Recommendation ranker (`app/services/recommendation.py`) -/

/-- A scored candidate as built by `get_recommendations` (lines 129–135):
intervention id, its therapeutic approach, and the blended final score. -/
structure Scored where
  ikey : String
  approach : String
  score : ℚ
deriving Repr, DecidableEq

/-- Embeds `exploration_rate = max(0.1, 0.3 - total_interactions / 200)`
(recommendation.py line 252). -/
def exploration_rate (total_interactions : ℕ) : ℚ :=
  max (1/10) (3/10 - (total_interactions : ℚ) / 200)

/-- The selection loop of `_ensure_diversity_with_exploration`
(recommendation.py lines 248–266), faithful to the Python control flow: the
multiplicative bonus `1 + exploration_rate` is applied to the first item seen
of each approach; an item is selected when
`approach not in approaches_used or len(selected) < 3`; the loop breaks as
soon as 3 items are selected. -/
def diversityLoop (rate : ℚ) : List Scored → List Scored → List String → List Scored
  | [], selected, _ => selected
  | item :: rest, selected, used =>
      let item' := if item.approach ∈ used then item
                   else { item with score := item.score * (1 + rate) }
      if item.approach ∉ used ∨ selected.length < 3 then
        let selected' := selected ++ [item']
        let used' := if item.approach ∈ used then used else item.approach :: used
        if 3 ≤ selected'.length then selected'
        else diversityLoop rate rest selected' used'
      else
        if 3 ≤ selected.length then selected
        else diversityLoop rate rest selected used

/-- Stable descending sort by final score: Python's
`sort(key=lambda x: x["score"], reverse=True)` (lines 138 and 269). -/
def sortDescScore (l : List Scored) : List Scored :=
  sortDescBy (fun s => s.score) l

/-- Embeds `_ensure_diversity_with_exploration` (recommendation.py lines 236–271):
pools of ≤ 3 are returned untouched, otherwise the selection loop runs and
the selection is re-sorted after the exploration bonus. -/
def ensure_diversity_with_exploration (scored : List Scored)
    (total_interactions : ℕ) : List Scored :=
  if scored.length ≤ 3 then scored
  else sortDescScore (diversityLoop (exploration_rate total_interactions) scored [] [])

/-- The ranking tail of `get_recommendations` (lines 137–144): stable sort of
the scored pool descending by final score, keep the top 15, apply
diversity/exploration, return the top 3. -/
def get_recommendations_top3 (scored : List Scored)
    (total_interactions : ℕ) : List Scored :=
  (ensure_diversity_with_exploration ((sortDescScore scored).take 15)
    total_interactions).take 3

/-- A filtered candidate pool with three distinct therapeutic approaches in
which the three top-scored candidates all share one approach. -/
def uniformTopPool : List Scored :=
  [⟨"i1", "DBT", 9/10⟩, ⟨"i2", "DBT", 8/10⟩, ⟨"i3", "DBT", 7/10⟩,
   ⟨"i4", "Mindfulness", 3/5⟩, ⟨"i5", "Physical", 1/2⟩]

/-- C1 fails on the code: on `uniformTopPool` — whose five candidates span the
3 distinct approaches DBT, Mindfulness and Physical — `get_recommendations`
returns three candidates that all share the approach DBT.  The guard
`approach not in approaches_used or len(selected) < 3` of
`_ensure_diversity_with_exploration` is identically true before the loop's
break, so the walk never skips a repeated approach. -/
theorem diversity_not_enforced :
    ("DBT" ∈ uniformTopPool.map (fun s => s.approach) ∧
     "Mindfulness" ∈ uniformTopPool.map (fun s => s.approach) ∧
     "Physical" ∈ uniformTopPool.map (fun s => s.approach)) ∧
    (get_recommendations_top3 uniformTopPool 0).map (fun s => s.approach)
      = ["DBT", "DBT", "DBT"] := by
  constructor
  · refine ⟨?_, ?_, ?_⟩ <;> decide
  · norm_num [get_recommendations_top3, ensure_diversity_with_exploration,
      diversityLoop, sortDescScore, sortDescBy, insertDescBy,
      exploration_rate, uniformTopPool, List.take]

end Firefly
